import Mathlib

/-! Verification of the role-assignment TUI: the async-work/state bridge
(`Loadable`, `LoadableWorkBuilder`, `AppWorkState`) and the cooperative
render/event loop of `ResourceGroupTuiArgs::invoke`
(src/cli/command/resource_group_tui/mod.rs). -/

namespace RoleAssignmentTui

/-! ## Loadable state machine -/

/-- Modelled from the spec: `Loadable<T>` lives in the external crate
`cloud_terrastodon_command::app_work` (not under src/); its variants with
payloads are given in spec section 3: `NotLoaded`, `Loading{started_at}`,
`Loaded{value, loaded_at}`, `Failed{error, failed_at}`. Timestamps are
modelled as `Nat`. -/
inductive Loadable (T : Type) where
  | notLoaded : Loadable T
  | loading (started_at : Nat) : Loadable T
  | loaded (value : T) (loaded_at : Nat) : Loadable T
  | failed (error : String) (failed_at : Nat) : Loadable T
deriving DecidableEq

def Loadable.isNotLoaded : Loadable T → Bool
  | .notLoaded => true
  | _ => false

def Loadable.isLoading : Loadable T → Bool
  | .loading _ => true
  | _ => false

def Loadable.isLoaded : Loadable T → Bool
  | .loaded _ _ => true
  | _ => false

def Loadable.isFailed : Loadable T → Bool
  | .failed _ _ => true
  | _ => false

/-- Modelled from the spec: `mark_loading(now)` transitions to
`Loading{started_at: now}` from any prior state (spec section 4.1). -/
def Loadable.mark_loading (_self : Loadable T) (now : Nat) : Loadable T :=
  .loading now

/-- Modelled from the spec: the terminal `Loadable` a task constructs from
the resolved future (spec section 4.3 step 3): `Loaded` on `Ok`, `Failed`
with the error text on `Err`. -/
def Loadable.ofResult (now : Nat) : Except String T → Loadable T
  | .ok v => .loaded v now
  | .error e => .failed e now

/-- Modelled from the spec: `complete(now, result)` transitions to
`Loaded{value, loaded_at: now}` on success or `Failed{error, failed_at: now}`
on failure (spec section 4.1). -/
def Loadable.complete (_self : Loadable T) (now : Nat) (r : Except String T) : Loadable T :=
  Loadable.ofResult now r

/-- The operations the core ever performs on a `Loadable` slot:
`mark_loading` (done synchronously by `enqueue`) and `complete`
(done by a finished task's closure). -/
inductive LoadableOp (T : Type) where
  | mark_loading (now : Nat)
  | complete (now : Nat) (result : Except String T)

def Loadable.applyOp (l : Loadable T) : LoadableOp T → Loadable T
  | .mark_loading now => l.mark_loading now
  | .complete now r => l.complete now r

def Loadable.applyOps (l : Loadable T) (ops : List (LoadableOp T)) : Loadable T :=
  ops.foldl Loadable.applyOp l

/-- Progress rank along `NotLoaded → Loading → {Loaded | Failed}`. -/
def Loadable.rank : Loadable T → Nat
  | .notLoaded => 0
  | .loading _ => 1
  | .loaded _ _ => 2
  | .failed _ _ => 2

def LoadableOp.isMarkLoading : LoadableOp T → Bool
  | .mark_loading _ => true
  | _ => false

/-! ## Work descriptor, builder, scheduler -/

/-- Modelled from the spec: the builder's `MissingField` configuration
error names the absent field (spec section 4.2). -/
inductive MissingField where
  | description
  | setter
  | work
deriving DecidableEq

/-- Modelled from the spec: an immutable work descriptor pairing a
description, a merge function (`setter`) and the asynchronous operation;
the future is modelled by its eventual outcome `Except String T`
(spec section 3, Work Descriptor). -/
structure LoadableWork (S T : Type) where
  description : String
  setter : S → Loadable T → S
  work : Except String T

/-- Modelled from the spec: `LoadableWorkBuilder` with three optional
fields, all required at `build()` time (spec section 4.2). -/
structure LoadableWorkBuilder (S T : Type) where
  description : Option String
  setter : Option (S → Loadable T → S)
  work : Option (Except String T)

def LoadableWorkBuilder.new (S T : Type) : LoadableWorkBuilder S T :=
  ⟨none, none, none⟩

def LoadableWorkBuilder.setDescription (b : LoadableWorkBuilder S T) (d : String) :
    LoadableWorkBuilder S T :=
  { b with description := some d }

def LoadableWorkBuilder.setSetter (b : LoadableWorkBuilder S T) (f : S → Loadable T → S) :
    LoadableWorkBuilder S T :=
  { b with setter := some f }

def LoadableWorkBuilder.setWork (b : LoadableWorkBuilder S T) (w : Except String T) :
    LoadableWorkBuilder S T :=
  { b with work := some w }

/-- Modelled from the spec: `build()` returns the immutable descriptor when
description, setter and work have all been supplied, and otherwise fails
with the `MissingField` error naming the absent field (spec section 4.2).
It touches neither the scheduler nor the app state: its inputs are the
builder alone. -/
def LoadableWorkBuilder.build (b : LoadableWorkBuilder S T) :
    Except MissingField (LoadableWork S T) :=
  match b.description with
  | none => .error .description
  | some d =>
    match b.setter with
    | none => .error .setter
    | some st =>
      match b.work with
      | none => .error .work
      | some w => .ok ⟨d, st, w⟩

/-- Modelled from the spec: the scheduler owns a channel of boxed apply
closures (spec section 3, Scheduler state); `tasks` are the in-flight
spawned futures, each of which, when it resolves at some time `t`, will
push its closure onto the channel (spec section 4.3). -/
structure AppWorkState (S : Type) where
  tasks : List (Nat → S → S)
  channel : List (S → S)

def AppWorkState.new (S : Type) : AppWorkState S :=
  ⟨[], []⟩

/-- Modelled from the spec: `enqueue` (1) synchronously sets the slot to
`Loading` through the descriptor's setter, (2) spawns the future — the
task will later push `|state| setter(state, terminal)` onto the channel
(spec section 4.3). Spawning is modelled as infallible. -/
def LoadableWork.enqueue (w : LoadableWork S T) (ws : AppWorkState S) (s : S) (now : Nat) :
    AppWorkState S × S :=
  (⟨ws.tasks ++ [fun t st => w.setter st (Loadable.ofResult t w.work)], ws.channel⟩,
   w.setter s (Loadable.loading now))

/-- Modelled from the spec: `handle_messages` drains every currently queued
closure from the channel without blocking and applies each to the state in
arrival order (spec section 4.3). -/
def AppWorkState.handle_messages (ws : AppWorkState S) (s : S) : AppWorkState S × S :=
  (⟨ws.tasks, []⟩, ws.channel.foldl (fun acc f => f acc) s)

/-- The environment resolves the oldest in-flight task at time `t`: its
completion closure moves onto the channel. The loop itself never performs
this step; it models the background runtime. -/
def AppWorkState.deliver_task (ws : AppWorkState S) (t : Nat) : AppWorkState S :=
  match ws.tasks with
  | [] => ws
  | task :: rest => ⟨rest, ws.channel ++ [task t]⟩

/-! ## Concrete app data (from src/cli/command/resource_group_tui/mod.rs) -/

structure PrincipalId where
  id : String
deriving DecidableEq

structure Scope where
  path : String
deriving DecidableEq

/-- A resource group as used by the TUI: its `name` and the scope obtained
from `rg.id.as_scope_impl()`. -/
structure ResourceGroup where
  name : String
  scope : Scope
deriving DecidableEq

structure RoleAssignment where
  scope : Scope
  principal_id : PrincipalId
deriving DecidableEq

structure RoleDefinition where
  display_name : String
deriving DecidableEq

/-- `RoleDefinitionsAndAssignments`, exposed through
`iter_role_assignments()` as pairs of assignment and definition. -/
structure RoleDefinitionsAndAssignments where
  assignments : List (RoleAssignment × RoleDefinition)
deriving DecidableEq

structure User where
  id : PrincipalId
  display_name : String
deriving DecidableEq

structure ServicePrincipal where
  id : PrincipalId
  display_name : String
deriving DecidableEq

structure Group where
  id : PrincipalId
  display_name : String
deriving DecidableEq

/-- `HashMap::insert`: the new binding replaces any previous one. -/
def insertPD (m : List (PrincipalId × String)) (k : PrincipalId) (v : String) :
    List (PrincipalId × String) :=
  (k, v) :: m.filter (fun p => ! (p.1 == k))

/-- `HashMap::get`. -/
def lookupPD (m : List (PrincipalId × String)) (k : PrincipalId) : Option String :=
  (m.find? (fun p => p.1 == k)).map (fun p => p.2)

/-- `AppData` from `invoke` (mod.rs lines 49-58). -/
structure AppData where
  resource_groups : Loadable (List ResourceGroup)
  rbac : Loadable RoleDefinitionsAndAssignments
  users : Loadable (List User)
  service_principals : Loadable (List ServicePrincipal)
  security_groups : Loadable (List Group)
  principal_display : List (PrincipalId × String)
deriving DecidableEq

/-- `AppData::default()`: every slot `NotLoaded`, empty lookup map. -/
def AppData.default : AppData :=
  ⟨.notLoaded, .notLoaded, .notLoaded, .notLoaded, .notLoaded, []⟩

/-! ## ListState (ratatui) -/

def USIZE_MAX : Nat := 2 ^ 64 - 1

/-- ratatui `ListState`, reduced to the selection cursor. -/
structure ListState where
  selected : Option Nat
deriving DecidableEq

/-- ratatui `ListState::select_next`: saturating increment, `0` from no
selection. -/
def ListState.select_next (s : ListState) : ListState :=
  ⟨some (match s.selected with
    | none => 0
    | some i => min (i + 1) USIZE_MAX)⟩

/-- ratatui `ListState::select_previous`: saturating decrement,
`usize::MAX` from no selection. -/
def ListState.select_previous (s : ListState) : ListState :=
  ⟨some (match s.selected with
    | none => USIZE_MAX
    | some i => i - 1)⟩

/-- ratatui `ListState::select_first`. -/
def ListState.select_first (_s : ListState) : ListState :=
  ⟨some 0⟩

/-- ratatui `ListState::select_last`: selects the `usize::MAX` sentinel,
clamped to the last entry at render time. -/
def ListState.select_last (_s : ListState) : ListState :=
  ⟨some USIZE_MAX⟩

/-- `App` from `invoke` (mod.rs lines 60-65). -/
structure App where
  data : AppData
  work : AppWorkState AppData
  rg_list_state : ListState

/-! ## The five startup work items (mod.rs lines 75-143) -/

/-- The eventual outcomes of the five fetch futures; the fetches themselves
are external Azure calls, so the model is parameterised by their results. -/
structure FetchOutcomes where
  rgs : Except String (List ResourceGroup)
  rbac : Except String RoleDefinitionsAndAssignments
  sps : Except String (List ServicePrincipal)
  users : Except String (List User)
  sgs : Except String (List Group)

/-- mod.rs lines 75-80. -/
def resource_groups_builder (r : Except String (List ResourceGroup)) :
    LoadableWorkBuilder AppData (List ResourceGroup) :=
  (((LoadableWorkBuilder.new AppData (List ResourceGroup)).setDescription
      "fetch_all_resource_groups").setSetter
      (fun state value => { state with resource_groups := value })).setWork r

/-- mod.rs lines 83-88. -/
def rbac_builder (r : Except String RoleDefinitionsAndAssignments) :
    LoadableWorkBuilder AppData RoleDefinitionsAndAssignments :=
  (((LoadableWorkBuilder.new AppData RoleDefinitionsAndAssignments).setDescription
      "fetch_all_role_definitions_and_assignments").setSetter
      (fun state value => { state with rbac := value })).setWork r

/-- mod.rs lines 91-110: on `Loaded`, also records a display string for
each service principal before storing the loadable. -/
def service_principals_builder (r : Except String (List ServicePrincipal)) :
    LoadableWorkBuilder AppData (List ServicePrincipal) :=
  (((LoadableWorkBuilder.new AppData (List ServicePrincipal)).setDescription
      "fetch_all_service_principals").setSetter
      (fun (state : AppData) (loadable : Loadable (List ServicePrincipal)) =>
        let state :=
          match loadable with
          | .loaded value _ =>
            { state with principal_display :=
                (value.foldl
                  (fun m (sp : ServicePrincipal) => insertPD m sp.id ("(Service Principal) " ++ sp.display_name))
                  state.principal_display) }
          | _ => state
        { state with service_principals := loadable })).setWork r

/-- mod.rs lines 112-127. -/
def users_builder (r : Except String (List User)) :
    LoadableWorkBuilder AppData (List User) :=
  (((LoadableWorkBuilder.new AppData (List User)).setDescription
      "fetch_all_users").setSetter
      (fun (state : AppData) (loadable : Loadable (List User)) =>
        let state :=
          match loadable with
          | .loaded value _ =>
            { state with principal_display :=
                (value.foldl
                  (fun m (user : User) => insertPD m user.id ("(User) " ++ user.display_name))
                  state.principal_display) }
          | _ => state
        { state with users := loadable })).setWork r

/-- mod.rs lines 129-143. -/
def security_groups_builder (r : Except String (List Group)) :
    LoadableWorkBuilder AppData (List Group) :=
  (((LoadableWorkBuilder.new AppData (List Group)).setDescription
      "fetch_all_security_groups").setSetter
      (fun (state : AppData) (loadable : Loadable (List Group)) =>
        let state :=
          match loadable with
          | .loaded value _ =>
            { state with principal_display :=
                (value.foldl
                  (fun m (sg : Group) => insertPD m sg.id ("(Group) " ++ sg.display_name))
                  state.principal_display) }
          | _ => state
        { state with security_groups := loadable })).setWork r

/-- The startup sequence of `invoke`: build and enqueue the five work items
in source order (resource groups, rbac, service principals, users, security
groups) at times `t1..t5`; builder errors propagate as in the source's `?`. -/
def startup (o : FetchOutcomes) (t1 t2 t3 t4 t5 : Nat) :
    Except MissingField (AppWorkState AppData × AppData) := do
  let ws := AppWorkState.new AppData
  let d := AppData.default
  let w1 ← (resource_groups_builder o.rgs).build
  let (ws, d) := w1.enqueue ws d t1
  let w2 ← (rbac_builder o.rbac).build
  let (ws, d) := w2.enqueue ws d t2
  let w3 ← (service_principals_builder o.sps).build
  let (ws, d) := w3.enqueue ws d t3
  let w4 ← (users_builder o.users).build
  let (ws, d) := w4.enqueue ws d t4
  let w5 ← (security_groups_builder o.sgs).build
  let (ws, d) := w5.enqueue ws d t5
  return (ws, d)

/-- The state reached by the startup sequence (total projection of
`startup`, which never fails since all five builders are complete). -/
def startupResult (o : FetchOutcomes) (t1 t2 t3 t4 t5 : Nat) :
    AppWorkState AppData × AppData :=
  match startup o t1 t2 t3 t4 t5 with
  | .ok r => r
  | .error _ => (AppWorkState.new AppData, AppData.default)

/-! ## Input events (crossterm, as used by the key handler) -/

inductive KeyCode where
  | esc
  | char (c : Char)
  | down
  | up
  | pageDown
  | pageUp
  | home
  | endKey
  | otherKey
deriving DecidableEq

inductive KeyEventKind where
  | press
  | repeated
  | release
deriving DecidableEq

structure KeyEvent where
  code : KeyCode
  kind : KeyEventKind
deriving DecidableEq

inductive Event where
  | key (k : KeyEvent)
  | nonKey
deriving DecidableEq

/-- The designated quit input: a key press of Esc or the character q
(mod.rs lines 154-158). -/
def isQuitEvent : Event → Bool
  | .key k => k.kind == .press && (k.code == .esc || k.code == .char 'q')
  | .nonKey => false

/-- Handling of one ready event (mod.rs lines 153-190): non-key events and
non-press key events are skipped; Esc and q quit; Down/Up move the cursor
one step, PageDown/PageUp ten steps, Home selects last, End selects first;
every other key falls through to the catch-all arm. Returns the updated app
and whether the quit break fired. -/
def handleEvent (app : App) (e : Event) : App × Bool :=
  match e with
  | .nonKey => (app, false)
  | .key k =>
    if k.kind != .press then (app, false)
    else
      match k.code with
      | .esc => (app, true)
      | .char c => if c = 'q' then (app, true) else (app, false)
      | .down => ({ app with rg_list_state := app.rg_list_state.select_next }, false)
      | .up => ({ app with rg_list_state := app.rg_list_state.select_previous }, false)
      | .pageDown =>
        ({ app with rg_list_state := Nat.iterate ListState.select_next 10 app.rg_list_state },
         false)
      | .pageUp =>
        ({ app with rg_list_state := Nat.iterate ListState.select_previous 10 app.rg_list_state },
         false)
      | .home => ({ app with rg_list_state := app.rg_list_state.select_last }, false)
      | .endKey => ({ app with rg_list_state := app.rg_list_state.select_first }, false)
      | .otherKey => (app, false)

/-- The `while event::poll(0ms)` loop (mod.rs lines 152-191): consumes the
ready events in order until the queue is empty or the quit break fires;
events after the quit key are left unconsumed. -/
def processEvents (app : App) : List Event → App × Bool × List Event
  | [] => (app, false, [])
  | e :: rest =>
    let r := handleEvent app e
    if r.2 then (r.1, true, rest)
    else processEvents r.1 rest

/-! ## Rendering (mod.rs lines 193-319) -/

/-- The left-panel list items (mod.rs lines 202-214). -/
def rgListItems (l : Loadable (List ResourceGroup)) : List String :=
  match l with
  | .loaded value _ => value.map (fun rg => rg.name)
  | .loading _ => ["Loading resource groups..."]
  | .failed error _ => ["Error: " ++ error]
  | .notLoaded => ["Not loaded"]

/-- The right-panel text (mod.rs lines 230-317): the match arms in source
order — (Loaded, Loaded) with the per-selection logic, then the Loading
arms, then the Failed arms (resource_groups side first), then the
catch-all. -/
def rightPanelText (data : AppData) (sel : Option Nat) : String :=
  match data.resource_groups, data.rbac with
  | .loaded rgs _, .loaded rbac _ =>
    (match sel with
    | some idx =>
      (match rgs[idx]? with
      | some rg =>
        let assignments := rbac.assignments.filter (fun p => p.1.scope == rg.scope)
        if assignments.isEmpty then "No role assignments."
        else
          String.intercalate "\n"
            (assignments.map (fun p =>
              let principal :=
                (lookupPD data.principal_display p.1.principal_id).getD p.1.principal_id.id
              p.2.display_name ++ ": " ++ principal))
      | none => "No resource group selected.")
    | none => "No resource group selected.")
  | .loading _, _ => "Loading..."
  | _, .loading _ => "Loading..."
  | .failed error _, _ => "Error: " ++ error
  | _, .failed error _ => "Error: " ++ error
  | _, _ => "Not loaded."

/-- One rendered frame: the resource-group list items and the
role-assignments panel text. -/
structure Frame where
  rg_items : List String
  right_text : String
deriving DecidableEq

/-- `terminal.draw` renders the current app data plus the local interaction
state. -/
def drawFrame (app : App) : Frame :=
  ⟨rgListItems app.data.resource_groups, rightPanelText app.data app.rg_list_state.selected⟩

/-! ## The render/event loop (mod.rs lines 148-322) -/

inductive LoopAction where
  | handled_messages
  | polled_input
  | drew
  | slept (ms : Nat)
deriving DecidableEq

structure IterResult where
  app : App
  quit : Bool
  frame : Option Frame
  actions : List LoopAction
  unconsumed : List Event

/-- One iteration of the labelled loop (mod.rs lines 148-322), faithful to
the source order: `handle_messages` first, then the event-poll loop — whose
quit break exits the outer loop immediately, skipping the draw and the
sleep — then `terminal.draw`, then the fixed 50ms sleep. `actions` records
the steps the iteration actually performed, in order. -/
def loopIter (app : App) (events : List Event) : IterResult :=
  let hm := app.work.handle_messages app.data
  let app1 : App := { app with work := hm.1, data := hm.2 }
  let pe := processEvents app1 events
  if pe.2.1 then
    ⟨pe.1, true, none, [.handled_messages, .polled_input], pe.2.2⟩
  else
    ⟨pe.1, false, some (drawFrame pe.1),
     [.handled_messages, .polled_input, .drew, .slept 50], pe.2.2⟩

/-- The environment's contribution to one iteration: completion closures
the background tasks pushed onto the channel since the last iteration, and
the input events ready in the terminal queue. -/
structure IterIn where
  deliveries : List (AppData → AppData)
  events : List Event

def pushMessages (ws : AppWorkState AppData) (ds : List (AppData → AppData)) :
    AppWorkState AppData :=
  ⟨ws.tasks, ws.channel ++ ds⟩

/-- The whole loop run against a schedule of per-iteration environment
inputs: it stops at the first quitting iteration (returning true) or when
the schedule is exhausted (returning false), collecting the frames drawn. -/
def runLoop (app : App) : List IterIn → App × List Frame × Bool
  | [] => (app, [], false)
  | it :: rest =>
    let app1 : App := { app with work := pushMessages app.work it.deliveries }
    let r := loopIter app1 it.events
    if r.quit then (r.app, [], true)
    else
      let rec2 := runLoop r.app rest
      (rec2.1, r.frame.toList ++ rec2.2.1, rec2.2.2)

/-- The app as `invoke` would hold it with nothing enqueued: default data,
fresh scheduler, no selection. -/
def App0 : App :=
  ⟨AppData.default, AppWorkState.new AppData, ⟨none⟩⟩

/-- A concrete set of fetch outcomes for witnesses. -/
def FetchOutcomes0 : FetchOutcomes :=
  ⟨Except.ok [], Except.ok ⟨[]⟩, Except.ok [], Except.ok [], Except.ok []⟩

/-- The scenario for per-slot failure: startup ran with the resource-group
fetch destined to fail with `e`; the background runtime has delivered that
(oldest) task's completion at time `t`; the other four tasks are still in
flight. -/
def failedRgScenario (e : String) (o : FetchOutcomes) (t1 t2 t3 t4 t5 t : Nat) : App :=
  ⟨(startupResult { o with rgs := Except.error e } t1 t2 t3 t4 t5).2,
   (startupResult { o with rgs := Except.error e } t1 t2 t3 t4 t5).1.deliver_task t,
   ⟨none⟩⟩

/-! ## Helper lemmas -/

theorem Loadable.rank_le_two (l : Loadable T) : l.rank ≤ 2 := by
  cases l <;> simp [Loadable.rank]

theorem Loadable.rank_complete (s : Loadable T) (now : Nat) (r : Except String T) :
    (s.applyOp (LoadableOp.complete now r)).rank = 2 := by
  cases r <;> rfl

theorem handleEvent_data_work (app : App) (e : Event) :
    (handleEvent app e).1.data = app.data ∧ (handleEvent app e).1.work = app.work := by
  cases e with
  | nonKey => exact ⟨rfl, rfl⟩
  | key k =>
    obtain ⟨code, kind⟩ := k
    cases kind <;> cases code <;>
      simp [handleEvent, apply_ite]

theorem handleEvent_quit (app : App) (e : Event) :
    (handleEvent app e).2 = isQuitEvent e := by
  cases e with
  | nonKey => rfl
  | key k =>
    obtain ⟨code, kind⟩ := k
    cases kind <;> cases code <;>
      simp only [handleEvent, isQuitEvent] <;>
        first
          | rfl
          | (rename_i c
             by_cases hc : c = 'q'
             · simp [hc]
             · simp [hc])

theorem processEvents_data_work (events : List Event) (app : App) :
    (processEvents app events).1.data = app.data
    ∧ (processEvents app events).1.work = app.work := by
  induction events generalizing app with
  | nil => exact ⟨rfl, rfl⟩
  | cons e rest ih =>
    have h := handleEvent_data_work app e
    simp only [processEvents]
    split
    · exact h
    · have h2 := ih (handleEvent app e).1
      exact ⟨h2.1.trans h.1, h2.2.trans h.2⟩

theorem processEvents_no_quit (events : List Event) (app : App)
    (h : ∀ e ∈ events, isQuitEvent e = false) :
    (processEvents app events).2.1 = false ∧ (processEvents app events).2.2 = [] := by
  induction events generalizing app with
  | nil => exact ⟨rfl, rfl⟩
  | cons e rest ih =>
    have hq : (handleEvent app e).2 = false := by
      rw [handleEvent_quit]
      exact h e (List.mem_cons_self _ _)
    simp only [processEvents]
    rw [if_neg (by simp [hq])]
    exact ih _ (fun x hx => h x (List.mem_cons_of_mem _ hx))

theorem processEvents_quit_iff (events : List Event) (app : App) :
    (processEvents app events).2.1 = true ↔ ∃ e ∈ events, isQuitEvent e = true := by
  induction events generalizing app with
  | nil => simp [processEvents]
  | cons e rest ih =>
    have hqe := handleEvent_quit app e
    simp only [processEvents]
    by_cases hq : (handleEvent app e).2 = true
    · rw [if_pos hq]
      constructor
      · intro _
        exact ⟨e, List.mem_cons_self _ _, hqe ▸ hq⟩
      · intro _
        rfl
    · rw [if_neg hq]
      rw [ih]
      constructor
      · rintro ⟨x, hx, hxq⟩
        exact ⟨x, List.mem_cons_of_mem _ hx, hxq⟩
      · rintro ⟨x, hx, hxq⟩
        rcases List.mem_cons.mp hx with h1 | h2
        · subst h1
          exact absurd (hqe.trans hxq) hq
        · exact ⟨x, h2, hxq⟩

theorem loopIter_no_quit_spec (app : App) (events : List Event)
    (h : ∀ e ∈ events, isQuitEvent e = false) :
    (loopIter app events).quit = false
    ∧ (loopIter app events).actions
        = [LoopAction.handled_messages, LoopAction.polled_input,
           LoopAction.drew, LoopAction.slept 50]
    ∧ (loopIter app events).unconsumed = []
    ∧ (loopIter app events).frame = some (drawFrame (loopIter app events).app) := by
  have hnq := processEvents_no_quit events
    { app with work := (app.work.handle_messages app.data).1,
               data := (app.work.handle_messages app.data).2 } h
  simp only [loopIter]
  rw [if_neg (by simp [hnq.1])]
  exact ⟨rfl, rfl, hnq.2, rfl⟩

theorem loopIter_quit_eq (app : App) (events : List Event) :
    (loopIter app events).quit
      = (processEvents
          { app with work := (app.work.handle_messages app.data).1,
                     data := (app.work.handle_messages app.data).2 } events).2.1 := by
  simp only [loopIter]
  split
  · next hc => exact hc.symm
  · next hc =>
    simp only [Bool.not_eq_true] at hc
    exact hc.symm

theorem loopIter_app_work_tasks (app : App) (events : List Event) :
    (loopIter app events).app.work.tasks = app.work.tasks := by
  have hw := (processEvents_data_work events
    { app with work := (app.work.handle_messages app.data).1,
               data := (app.work.handle_messages app.data).2 }).2
  simp only [loopIter]
  split <;> rw [hw] <;> rfl

theorem loopIter_app_data (app : App) (events : List Event) :
    (loopIter app events).app.data = (app.work.handle_messages app.data).2 := by
  have hd := (processEvents_data_work events
    { app with work := (app.work.handle_messages app.data).1,
               data := (app.work.handle_messages app.data).2 }).1
  simp only [loopIter]
  split <;> exact hd

theorem select_next_iterate (n i : Nat) (h : i + n ≤ USIZE_MAX) :
    Nat.iterate ListState.select_next n ⟨some i⟩ = ⟨some (i + n)⟩ := by
  induction n generalizing i with
  | zero => simp
  | succ m ih =>
    rw [Function.iterate_succ_apply]
    have h1 : i + 1 ≤ USIZE_MAX := by omega
    have hstep : ListState.select_next ⟨some i⟩ = ⟨some (i + 1)⟩ := by
      simp only [ListState.select_next]
      rw [Nat.min_eq_left h1]
    rw [hstep, ih (i + 1) (by omega)]
    have harith : i + 1 + m = i + (m + 1) := by omega
    rw [harith]

theorem select_previous_iterate (n i : Nat) :
    Nat.iterate ListState.select_previous n ⟨some i⟩ = ⟨some (i - n)⟩ := by
  induction n generalizing i with
  | zero => simp
  | succ m ih =>
    rw [Function.iterate_succ_apply]
    have hstep : ListState.select_previous ⟨some i⟩ = ⟨some (i - 1)⟩ := rfl
    rw [hstep, ih (i - 1)]
    have harith : i - 1 - m = i - (m + 1) := by omega
    rw [harith]

/-! ## Claims -/

/-- C1: the startup sequence of `invoke` builds and enqueues five work
descriptors (resource_groups, rbac, service_principals, users,
security_groups) in source order; each `enqueue` synchronously sets its
slot to `Loading`, so after startup all five slots are `Loading` with the
respective enqueue times, and the very next render of the left panel
already shows the loading indicator. -/
theorem startup_enqueue_sets_loading (o : FetchOutcomes) (t1 t2 t3 t4 t5 : Nat) :
    startup o t1 t2 t3 t4 t5 = Except.ok (startupResult o t1 t2 t3 t4 t5)
    ∧ (startupResult o t1 t2 t3 t4 t5).2.resource_groups = Loadable.loading t1
    ∧ (startupResult o t1 t2 t3 t4 t5).2.rbac = Loadable.loading t2
    ∧ (startupResult o t1 t2 t3 t4 t5).2.service_principals = Loadable.loading t3
    ∧ (startupResult o t1 t2 t3 t4 t5).2.users = Loadable.loading t4
    ∧ (startupResult o t1 t2 t3 t4 t5).2.security_groups = Loadable.loading t5
    ∧ rgListItems (startupResult o t1 t2 t3 t4 t5).2.resource_groups
        = ["Loading resource groups..."] := by
  refine ⟨rfl, rfl, rfl, rfl, rfl, rfl, rfl⟩

/-- C2: `handle_messages` on an empty channel is the identity on both the
scheduler state and the app state, and repeating it is idempotent; it is a
total non-blocking drain, never waiting for a message. -/
theorem handle_messages_empty_channel_noop (S : Type) (ws : AppWorkState S) (s : S)
    (h : ws.channel = []) :
    ws.handle_messages s = (ws, s)
    ∧ (ws.handle_messages s).1.handle_messages (ws.handle_messages s).2
        = ws.handle_messages s := by
  obtain ⟨tasks, channel⟩ := ws
  simp only at h
  subst h
  exact ⟨rfl, rfl⟩

/-- Witness for C2 at a concrete empty scheduler and the default app
data. -/
theorem handle_messages_empty_channel_noop_witness :
    (AppWorkState.new AppData).handle_messages AppData.default
      = (AppWorkState.new AppData, AppData.default) :=
  (handle_messages_empty_channel_noop AppData (AppWorkState.new AppData)
    AppData.default rfl).1

/-- C3: under the only two operations the core performs on a `Loadable`
slot, the state moves only forward along
`NotLoaded → Loading → (Loaded | Failed)`: a `Loading` state arises only
from an explicit `mark_loading` (the enqueue), a completion always lands in
a terminal state, any op sequence free of `mark_loading` never decreases
the progress rank, and exactly one variant represents the slot at any
instant. -/
theorem loadable_transition_invariant (T : Type) (s : Loadable T) :
    (∀ (op : LoadableOp T) (t : Nat),
      s.applyOp op = Loadable.loading t → op = LoadableOp.mark_loading t)
    ∧ (∀ (now : Nat) (r : Except String T),
        (s.applyOp (LoadableOp.complete now r)).rank = 2)
    ∧ (∀ ops : List (LoadableOp T),
        (∀ op ∈ ops, op.isMarkLoading = false) → s.rank ≤ (s.applyOps ops).rank)
    ∧ [s.isNotLoaded, s.isLoading, s.isLoaded, s.isFailed].count true = 1 := by
  refine ⟨?_, ?_, ?_, ?_⟩
  · intro op t hop
    cases op with
    | mark_loading now =>
      cases hop
      rfl
    | complete now r =>
      cases r <;> simp [Loadable.applyOp, Loadable.complete, Loadable.ofResult] at hop
  · intro now r
    exact Loadable.rank_complete s now r
  · intro ops
    induction ops generalizing s with
    | nil => intro _; exact Nat.le_refl _
    | cons op rest ih =>
      intro h
      have hop : op.isMarkLoading = false := h op (List.mem_cons_self _ _)
      have hrest : ∀ o ∈ rest, o.isMarkLoading = false :=
        fun o ho => h o (List.mem_cons_of_mem _ ho)
      have step : s.rank ≤ (s.applyOp op).rank := by
        cases op with
        | mark_loading now => simp [LoadableOp.isMarkLoading] at hop
        | complete now r =>
          calc s.rank ≤ 2 := Loadable.rank_le_two s
          _ = (s.applyOp (LoadableOp.complete now r)).rank :=
              (Loadable.rank_complete s now r).symm
      exact Nat.le_trans step (ih (s.applyOp op) hrest)
  · cases s <;> rfl

/-- Witness for C3 at a concrete slot, op and op sequence. -/
theorem loadable_transition_invariant_witness :
    ((Loadable.loading 0 : Loadable Nat).rank
      ≤ ((Loadable.loading 0 : Loadable Nat).applyOps
          [LoadableOp.complete 3 (Except.ok 42)]).rank)
    ∧ (LoadableOp.mark_loading 5 : LoadableOp Nat) = LoadableOp.mark_loading 5 := by
  constructor
  · exact (loadable_transition_invariant Nat (Loadable.loading 0)).2.2.1
      [LoadableOp.complete 3 (Except.ok 42)] (by decide)
  · exact (loadable_transition_invariant Nat Loadable.notLoaded).1
      (LoadableOp.mark_loading 5) 5 rfl

/-- C4: `build()` succeeds exactly when description, setter and work have
all been supplied; each missing field independently yields the
`MissingField` error naming that field, and the three errors are pairwise
distinct. `build` reads only the builder, so it has no effect on the
scheduler or the app state. -/
theorem build_requires_all_fields (S T : Type) (b : LoadableWorkBuilder S T) :
    ((∃ w, b.build = Except.ok w)
        ↔ b.description.isSome = true ∧ b.setter.isSome = true ∧ b.work.isSome = true)
    ∧ (b.description = none → b.build = Except.error MissingField.description)
    ∧ (b.description.isSome = true → b.setter = none →
        b.build = Except.error MissingField.setter)
    ∧ (b.description.isSome = true → b.setter.isSome = true → b.work = none →
        b.build = Except.error MissingField.work)
    ∧ (MissingField.description ≠ MissingField.setter
        ∧ MissingField.description ≠ MissingField.work
        ∧ MissingField.setter ≠ MissingField.work) := by
  obtain ⟨od, os, ow⟩ := b
  refine ⟨?_, ?_, ?_, ?_, by decide⟩ <;>
    cases od <;> cases os <;> cases ow <;>
      simp [LoadableWorkBuilder.build]

/-- Witness for C4: the four concrete builder shapes, each hypothesis
discharged at a concrete builder. -/
theorem build_requires_all_fields_witness :
    (LoadableWorkBuilder.new AppData Nat).build = Except.error MissingField.description
    ∧ ((LoadableWorkBuilder.new AppData Nat).setDescription "d").build
        = Except.error MissingField.setter
    ∧ (((LoadableWorkBuilder.new AppData Nat).setDescription "d").setSetter
        (fun s _ => s)).build = Except.error MissingField.work
    ∧ ∃ w, ((((LoadableWorkBuilder.new AppData Nat).setDescription "d").setSetter
        (fun s _ => s)).setWork (Except.ok 7)).build = Except.ok w := by
  refine ⟨?_, ?_, ?_, ?_⟩
  · exact (build_requires_all_fields AppData Nat _).2.1 rfl
  · exact (build_requires_all_fields AppData Nat _).2.2.1 rfl rfl
  · exact (build_requires_all_fields AppData Nat _).2.2.2.1 rfl rfl rfl
  · exact (build_requires_all_fields AppData Nat _).1.2 ⟨rfl, rfl, rfl⟩

/-- C5 counterexample: an iteration whose ready events contain the quit
key does not perform all four steps — the quit break exits after
handle_messages and a partial input poll, skipping the redraw and the
50ms sleep, and leaving the events after the quit key unconsumed. -/
theorem loop_quit_iteration_skips_draw :
    (loopIter App0
        [Event.key ⟨KeyCode.char 'q', KeyEventKind.press⟩,
         Event.key ⟨KeyCode.down, KeyEventKind.press⟩]).actions
      = [LoopAction.handled_messages, LoopAction.polled_input]
    ∧ (loopIter App0
        [Event.key ⟨KeyCode.char 'q', KeyEventKind.press⟩,
         Event.key ⟨KeyCode.down, KeyEventKind.press⟩]).frame = none
    ∧ (loopIter App0
        [Event.key ⟨KeyCode.char 'q', KeyEventKind.press⟩,
         Event.key ⟨KeyCode.down, KeyEventKind.press⟩]).unconsumed
      = [Event.key ⟨KeyCode.down, KeyEventKind.press⟩]
    ∧ LoopAction.drew ∉ (loopIter App0
        [Event.key ⟨KeyCode.char 'q', KeyEventKind.press⟩,
         Event.key ⟨KeyCode.down, KeyEventKind.press⟩]).actions := by
  refine ⟨rfl, rfl, rfl, by decide⟩

/-- C5 (amended): every iteration in which the quit key is not among the
ready events performs, in this order: (1) handle_messages, (2) the
zero-timeout poll consuming all currently ready input events, (3) a redraw
of the state as updated by this iteration, (4) the fixed 50ms sleep; the
quitting iteration instead stops after (1) and a partial (2). -/
theorem loop_iteration_step_order (app : App) (events : List Event)
    (h : ∀ e ∈ events, isQuitEvent e = false) :
    (loopIter app events).actions
      = [LoopAction.handled_messages, LoopAction.polled_input,
         LoopAction.drew, LoopAction.slept 50]
    ∧ (loopIter app events).unconsumed = []
    ∧ (loopIter app events).quit = false
    ∧ (loopIter app events).frame = some (drawFrame (loopIter app events).app) := by
  have hs := loopIter_no_quit_spec app events h
  exact ⟨hs.2.1, hs.2.2.1, hs.1, hs.2.2.2⟩

/-- Witness for amended C5 at a concrete app and event list. -/
theorem loop_iteration_step_order_witness :
    (loopIter App0 [Event.key ⟨KeyCode.down, KeyEventKind.press⟩]).actions
      = [LoopAction.handled_messages, LoopAction.polled_input,
         LoopAction.drew, LoopAction.slept 50] :=
  (loop_iteration_step_order App0 [Event.key ⟨KeyCode.down, KeyEventKind.press⟩]
    (by decide)).1

/-- C6: a future that resolves to an error never terminates the loop — in
the scenario where the resource-group fetch failed with `e` and its
completion has been applied, the iteration does not quit (absent a quit
key), the slot is `Failed` and the left panel renders its error text in
place of data, while the four other slots are still `Loading` and their
tasks still in flight. Loop-time message application is total in the
model, so only builder configuration errors can propagate out of
`invoke`'s setup (`startup` is the sole `Except` in the pipeline). -/
theorem failed_slot_keeps_loop_running (e : String) (o : FetchOutcomes)
    (t1 t2 t3 t4 t5 t : Nat) (events : List Event)
    (h : ∀ ev ∈ events, isQuitEvent ev = false) :
    (loopIter (failedRgScenario e o t1 t2 t3 t4 t5 t) events).quit = false
    ∧ (loopIter (failedRgScenario e o t1 t2 t3 t4 t5 t) events).app.data.resource_groups
        = Loadable.failed e t
    ∧ (loopIter (failedRgScenario e o t1 t2 t3 t4 t5 t) events).app.data.rbac
        = Loadable.loading t2
    ∧ (loopIter (failedRgScenario e o t1 t2 t3 t4 t5 t) events).app.data.service_principals
        = Loadable.loading t3
    ∧ (loopIter (failedRgScenario e o t1 t2 t3 t4 t5 t) events).app.data.users
        = Loadable.loading t4
    ∧ (loopIter (failedRgScenario e o t1 t2 t3 t4 t5 t) events).app.data.security_groups
        = Loadable.loading t5
    ∧ (loopIter (failedRgScenario e o t1 t2 t3 t4 t5 t) events).frame.map Frame.rg_items
        = some ["Error: " ++ e]
    ∧ (loopIter (failedRgScenario e o t1 t2 t3 t4 t5 t) events).app.work.tasks.length = 4 := by
  have hs := loopIter_no_quit_spec (failedRgScenario e o t1 t2 t3 t4 t5 t) events h
  have hd := loopIter_app_data (failedRgScenario e o t1 t2 t3 t4 t5 t) events
  have ht := loopIter_app_work_tasks (failedRgScenario e o t1 t2 t3 t4 t5 t) events
  have hrg : (loopIter (failedRgScenario e o t1 t2 t3 t4 t5 t) events).app.data.resource_groups
      = Loadable.failed e t := by rw [hd]; rfl
  refine ⟨hs.1, hrg, by rw [hd]; rfl, by rw [hd]; rfl, by rw [hd]; rfl, by rw [hd]; rfl,
    ?_, by rw [ht]; rfl⟩
  rw [hs.2.2.2]
  simp only [Option.map_some']
  show some (rgListItems _) = _
  rw [hrg]
  rfl

/-- Witness for C6 at concrete error text, outcomes, times and an empty
event queue. -/
theorem failed_slot_keeps_loop_running_witness :
    (loopIter (failedRgScenario "boom" FetchOutcomes0 1 2 3 4 5 6) []).app.data.resource_groups
      = Loadable.failed "boom" 6
    ∧ (loopIter (failedRgScenario "boom" FetchOutcomes0 1 2 3 4 5 6) []).quit = false := by
  have hs := failed_slot_keeps_loop_running "boom" FetchOutcomes0 1 2 3 4 5 6 []
    (by intro ev hev; cases hev)
  exact ⟨hs.2.1, hs.1⟩

/-- C7: an iteration quits exactly when a press of Esc or q is among the
ready events; the loop never cancels an in-flight task (the task list is
untouched by an iteration); and once a run has quit, any further scheduled
deliveries and events change nothing — their completions are never
consumed. -/
theorem quit_only_on_designated_key (app : App) (events : List Event) :
    ((loopIter app events).quit = true ↔ ∃ e ∈ events, isQuitEvent e = true)
    ∧ (loopIter app events).app.work.tasks = app.work.tasks
    ∧ (∀ (start : App) (its post : List IterIn),
        (runLoop start its).2.2 = true → runLoop start (its ++ post) = runLoop start its) := by
  refine ⟨?_, loopIter_app_work_tasks app events, ?_⟩
  · rw [loopIter_quit_eq, processEvents_quit_iff]
  · intro start its post
    induction its generalizing start with
    | nil =>
      intro hq
      simp [runLoop] at hq
    | cons it rest ih =>
      intro hq
      simp only [List.cons_append, runLoop] at hq ⊢
      by_cases hquit :
        (loopIter { start with work := pushMessages start.work it.deliveries } it.events).quit
          = true
      · rw [if_pos hquit, if_pos hquit]
      · rw [if_neg hquit] at hq ⊢
        rw [if_neg hquit]
        simp only [List.append_eq] at hq ⊢
        rw [ih _ hq]

/-- Witness for C7: a run that quits on Esc in its first iteration is
unchanged by appending a further scheduled iteration. -/
theorem quit_only_on_designated_key_witness :
    runLoop App0
        [⟨[], [Event.key ⟨KeyCode.esc, KeyEventKind.press⟩]⟩, ⟨[], []⟩]
      = runLoop App0 [⟨[], [Event.key ⟨KeyCode.esc, KeyEventKind.press⟩]⟩] :=
  (quit_only_on_designated_key App0 []).2.2 App0
    [⟨[], [Event.key ⟨KeyCode.esc, KeyEventKind.press⟩]⟩] [⟨[], []⟩] rfl

/-- C8: input handling mutates only the local list-selection state: for
every event and every event list, the shared app data (all five Loadable
slots and principal_display) and the scheduler state are unchanged. -/
theorem input_preserves_app_data (app : App) (events : List Event) (e : Event) :
    (processEvents app events).1.data = app.data
    ∧ (processEvents app events).1.work = app.work
    ∧ (handleEvent app e).1.data = app.data
    ∧ (handleEvent app e).1.work = app.work :=
  ⟨(processEvents_data_work events app).1, (processEvents_data_work events app).2,
   (handleEvent_data_work app e).1, (handleEvent_data_work app e).2⟩

/-- C9: Home selects the last entry (select_last, the usize::MAX sentinel)
and End selects the first (select_first, index 0) — the inverse of the
conventional mapping; PageDown and PageUp apply select_next and
select_previous exactly 10 times, with the stated closed forms; and a key
event whose kind is not a press changes no state at all. -/
theorem key_handling_semantics (app : App) (k : KeyEvent) (i : Nat) :
    (k.kind ≠ KeyEventKind.press → handleEvent app (Event.key k) = (app, false))
    ∧ handleEvent app (Event.key ⟨KeyCode.home, KeyEventKind.press⟩)
        = ({ app with rg_list_state := app.rg_list_state.select_last }, false)
    ∧ app.rg_list_state.select_last = ⟨some USIZE_MAX⟩
    ∧ handleEvent app (Event.key ⟨KeyCode.endKey, KeyEventKind.press⟩)
        = ({ app with rg_list_state := app.rg_list_state.select_first }, false)
    ∧ app.rg_list_state.select_first = ⟨some 0⟩
    ∧ handleEvent app (Event.key ⟨KeyCode.pageDown, KeyEventKind.press⟩)
        = ({ app with rg_list_state :=
              Nat.iterate ListState.select_next 10 app.rg_list_state }, false)
    ∧ handleEvent app (Event.key ⟨KeyCode.pageUp, KeyEventKind.press⟩)
        = ({ app with rg_list_state :=
              Nat.iterate ListState.select_previous 10 app.rg_list_state }, false)
    ∧ (i + 10 ≤ USIZE_MAX →
        Nat.iterate ListState.select_next 10 (⟨some i⟩ : ListState) = ⟨some (i + 10)⟩)
    ∧ Nat.iterate ListState.select_previous 10 (⟨some i⟩ : ListState) = ⟨some (i - 10)⟩
    ∧ Nat.iterate ListState.select_next 10 (⟨none⟩ : ListState) = ⟨some 9⟩
    ∧ Nat.iterate ListState.select_previous 10 (⟨none⟩ : ListState)
        = ⟨some (USIZE_MAX - 9)⟩ := by
  refine ⟨?_, rfl, rfl, rfl, rfl, rfl, rfl, ?_, ?_, ?_, ?_⟩
  · intro hk
    obtain ⟨code, kind⟩ := k
    cases kind with
    | press => exact absurd rfl hk
    | repeated => rfl
    | release => rfl
  · intro hle
    exact select_next_iterate 10 i hle
  · exact select_previous_iterate 10 i
  · rw [show (10 : Nat) = 9 + 1 from rfl, Function.iterate_succ_apply]
    rw [show ListState.select_next ⟨none⟩ = ⟨some 0⟩ from rfl]
    rw [select_next_iterate 9 0 (by norm_num [USIZE_MAX])]
  · rw [show (10 : Nat) = 9 + 1 from rfl, Function.iterate_succ_apply]
    rw [show ListState.select_previous ⟨none⟩ = ⟨some USIZE_MAX⟩ from rfl]
    rw [select_previous_iterate 9 USIZE_MAX]

/-- Witness for C9: the release of a key changes nothing, and ten
PageDown steps from index 0 land on index 10. -/
theorem key_handling_semantics_witness :
    handleEvent App0 (Event.key ⟨KeyCode.down, KeyEventKind.release⟩) = (App0, false)
    ∧ Nat.iterate ListState.select_next 10 (⟨some 0⟩ : ListState) = ⟨some 10⟩ :=
  ⟨(key_handling_semantics App0 ⟨KeyCode.down, KeyEventKind.release⟩ 0).1 (by decide),
   (key_handling_semantics App0 ⟨KeyCode.down, KeyEventKind.release⟩ 0).2.2.2.2.2.2.2.1
     (by norm_num [USIZE_MAX])⟩

/-- C10: in the right-hand role-assignments panel, the Loading arms
precede the Failed arms: whenever either slot is Loading the panel shows
the loading text, even if the other slot is Failed; a Failed error is
rendered only when neither slot is Loading; and when both slots are Failed
the resource_groups error string wins. -/
theorem right_panel_loading_precedence (d : AppData) (sel : Option Nat) :
    ((d.resource_groups.isLoading = true ∨ d.rbac.isLoading = true) →
        rightPanelText d sel = "Loading...")
    ∧ (∀ e1 a e2 b, d.resource_groups = Loadable.failed e1 a →
        d.rbac = Loadable.failed e2 b → rightPanelText d sel = "Error: " ++ e1)
    ∧ (∀ e a, d.resource_groups = Loadable.failed e a →
        d.rbac.isLoading = false → rightPanelText d sel = "Error: " ++ e)
    ∧ (∀ e b, d.rbac = Loadable.failed e b →
        d.resource_groups.isLoading = false → d.resource_groups.isFailed = false →
        rightPanelText d sel = "Error: " ++ e) := by
  obtain ⟨rg, rb, u, sp, sg, pd⟩ := d
  refine ⟨?_, ?_, ?_, ?_⟩ <;>
    cases rg <;> cases rb <;>
      simp [rightPanelText, Loadable.isLoading, Loadable.isFailed]
  intro e1 a e2 b h1 h2 h3 h4
  rw [h1]

/-- Witness for C10: with resource_groups Failed and rbac Loading the
panel still shows the loading text; with both Failed, the resource-group
error is shown. -/
theorem right_panel_loading_precedence_witness :
    rightPanelText ⟨Loadable.failed "a" 1, Loadable.loading 2, Loadable.notLoaded,
        Loadable.notLoaded, Loadable.notLoaded, []⟩ none = "Loading..."
    ∧ rightPanelText ⟨Loadable.failed "a" 1, Loadable.failed "b" 2, Loadable.notLoaded,
        Loadable.notLoaded, Loadable.notLoaded, []⟩ none = "Error: " ++ "a" :=
  ⟨(right_panel_loading_precedence _ none).1 (Or.inr rfl),
   (right_panel_loading_precedence _ none).2.1 "a" 1 "b" 2 rfl rfl⟩

end RoleAssignmentTui
